import Mathlib

/-!
Verification of the ngrx-data EntityDispatcher and the cached-collection
selector layer.

A shallow embedding of lib/src/entity-dispatcher.ts (the command to action
translation layer) of the angular-ngrx-data repository, plus a model of the
selectors layer, with theorems settling the frozen claims about the
behaviour of the dispatcher.

JavaScript runtime values are modelled by the inductive type Value
(numbers, strings, booleans, undefined, objects as association lists of
string-keyed fields, and arrays).  The ngrx store is modelled as the
EntityCache plus the ordered log of actions dispatched so far; each
dispatcher command method is a function from store to store, appending the
actions it dispatches to the log.
-/

set_option autoImplicit false

namespace NgrxData

/-- A JavaScript runtime value, as far as the dispatcher inspects them:
numbers, strings, booleans, undefined, plain objects (ordered field
lists) and arrays. -/
inductive Value where
  | vnum (n : Int)
  | vstr (s : String)
  | vbool (b : Bool)
  | vundefined
  | vobj (fields : List (String × Value))
  | varr (elems : List Value)

/-- JavaScript typeof.  Note that both plain objects and arrays answer
"object"; primitives answer their primitive type names. -/
def typeOf : Value → String
  | .vnum _ => "number"
  | .vstr _ => "string"
  | .vbool _ => "boolean"
  | .vundefined => "undefined"
  | .vobj _ => "object"
  | .varr _ => "object"

/-- First binding of field f in an ordered field list, if any. -/
def fieldLookup (f : String) : List (String × Value) → Option Value
  | [] => none
  | (k, v) :: rest => if k = f then some v else fieldLookup f rest

/-- JavaScript property access v[f]: the value of the field on an object
that has it, undefined on an object that lacks it and on every
non-object. -/
def fieldValue (v : Value) (f : String) : Value :=
  match v with
  | .vobj fields => (fieldLookup f fields).getD .vundefined
  | _ => .vundefined

/-- A primary-key value in the sense of the library: a number or a string. -/
def isKeyValue (v : Value) : Bool :=
  typeOf v == "number" || typeOf v == "string"

/-- The EntityOp vocabulary from entity.actions.ts, restricted to the
operations the dispatcher emits. -/
inductive EntityOp where
  | QUERY_ALL
  | QUERY_BY_KEY
  | QUERY_MANY
  | SAVE_ADD
  | SAVE_DELETE
  | SAVE_UPDATE
  | ADD_ALL
  | ADD_ONE
  | ADD_MANY
  | REMOVE_ALL
  | REMOVE_ONE
  | REMOVE_MANY
  | UPDATE_ONE
  | UPDATE_MANY
  | SET_FILTER
  deriving DecidableEq

/-- An action record, new EntityAction(entityName, op, payload); a command
that passes no payload dispatches with payload undefined. -/
structure EntityAction where
  entityType : String
  op : EntityOp
  payload : Value

/-- One normalized per-type collection (the shape the selectors layer
reads): ordered id list, string-keyed entity map (JavaScript object keys
are strings), loading flag, filter pattern, extension fields. -/
structure EntityCollection where
  ids : List Value
  entities : List (String × Value)
  loading : Bool
  filter : Value
  extra : List (String × Value)

/-- The EntityCache: entity-type name to collection. -/
def EntityCache := List (String × EntityCollection)

/-- Collection registered in the cache under the given name, if any. -/
def cacheLookup (cache : EntityCache) (name : String) : Option EntityCollection :=
  match cache with
  | [] => none
  | (k, c) :: rest => if k = name then some c else cacheLookup rest name

/-- The ngrx store as the dispatcher sees it: the cache plus the ordered
log of actions dispatched to it so far. -/
structure Store where
  cache : EntityCache
  log : List EntityAction

/-- Method store.dispatch(action): enqueue one action. -/
def storeDispatch (s : Store) (a : EntityAction) : Store :=
  { cache := s.cache, log := s.log ++ [a] }

/-- The default selectId of both the EntityDispatcher constructor and of
createEntityDispatcher: the arrow function returning entity.id. -/
def defaultSelectId : Value → Value :=
  fun entity => fieldValue entity "id"

/-- The per-instance configuration of the dispatcher: the entity-type name
and the configured identity-extraction function. -/
structure EntityDispatcher where
  entityName : String
  selectId : Value → Value

/-- The EntityDispatcher constructor; none for the selectId argument
models omitting it, which picks the default returning entity.id. -/
def mkEntityDispatcher (entityName : String) (sel : Option (Value → Value)) :
    EntityDispatcher :=
  { entityName := entityName, selectId := sel.getD defaultSelectId }

/-- Function createEntityDispatcher from entity-dispatcher.ts: delegates to
the constructor, with the same default selectId. -/
def createEntityDispatcher (entityName : String) (sel : Option (Value → Value)) :
    EntityDispatcher :=
  mkEntityDispatcher entityName sel

namespace EntityDispatcher

/-- Method dispatch(op, payload): one store.dispatch of one EntityAction
built from the entity name of the dispatcher. -/
def dispatch (d : EntityDispatcher) (s : Store) (op : EntityOp) (payload : Value) :
    Store :=
  storeDispatch s { entityType := d.entityName, op := op, payload := payload }

/-- Method getKey(arg): selectId(arg) when typeof arg is "object",
otherwise arg itself. -/
def getKey (d : EntityDispatcher) (arg : Value) : Value :=
  if typeOf arg = "object" then d.selectId arg else arg

/-- Method toUpdate(entity): the Update record with field id set to
selectId(entity) and field changes set to the entity itself. -/
def toUpdate (d : EntityDispatcher) (entity : Value) : Value :=
  .vobj [("id", d.selectId entity), ("changes", entity)]

/-- Method add(entity). -/
def add (d : EntityDispatcher) (s : Store) (entity : Value) : Store :=
  dispatch d s .SAVE_ADD entity

/-- Method delete(arg), raw key or entity. -/
def delete (d : EntityDispatcher) (s : Store) (arg : Value) : Store :=
  dispatch d s .SAVE_DELETE (getKey d arg)

/-- Method getAll(), no payload. -/
def getAll (d : EntityDispatcher) (s : Store) : Store :=
  dispatch d s .QUERY_ALL .vundefined

/-- Method getByKey(key). -/
def getByKey (d : EntityDispatcher) (s : Store) (key : Value) : Store :=
  dispatch d s .QUERY_BY_KEY key

/-- Method getWithQuery(queryParams). -/
def getWithQuery (d : EntityDispatcher) (s : Store) (queryParams : Value) : Store :=
  dispatch d s .QUERY_MANY queryParams

/-- Method update(entity): dispatches the Update structure as payload. -/
def update (d : EntityDispatcher) (s : Store) (entity : Value) : Store :=
  dispatch d s .SAVE_UPDATE (toUpdate d entity)

/-- Method addAllToCache(entities). -/
def addAllToCache (d : EntityDispatcher) (s : Store) (entities : Value) : Store :=
  dispatch d s .ADD_ALL entities

/-- Method addOneToCache(entity). -/
def addOneToCache (d : EntityDispatcher) (s : Store) (entity : Value) : Store :=
  dispatch d s .ADD_ONE entity

/-- Method addManyToCache(entities). -/
def addManyToCache (d : EntityDispatcher) (s : Store) (entities : Value) : Store :=
  dispatch d s .ADD_MANY entities

/-- Method clearCache(), no payload. -/
def clearCache (d : EntityDispatcher) (s : Store) : Store :=
  dispatch d s .REMOVE_ALL .vundefined

/-- Method removeOneFromCache(arg), raw key or entity. -/
def removeOneFromCache (d : EntityDispatcher) (s : Store) (arg : Value) : Store :=
  dispatch d s .REMOVE_ONE (getKey d arg)

/-- Method removeManyFromCache(args); none models a null or undefined
argument.  The source guards with an early return when args is falsy or
has length zero, then disambiguates keys from entities on typeof of the
first element, then performs one REMOVE_MANY dispatch. -/
def removeManyFromCache (d : EntityDispatcher) (s : Store)
    (args : Option (List Value)) : Store :=
  match args with
  | none => s
  | some [] => s
  | some (a :: rest) =>
    dispatch d s .REMOVE_MANY
      (.varr (if typeOf a = "object" then (a :: rest).map (getKey d) else a :: rest))

/-- Method updateOneInCache(entity). -/
def updateOneInCache (d : EntityDispatcher) (s : Store) (entity : Value) : Store :=
  dispatch d s .UPDATE_ONE (toUpdate d entity)

/-- Method updateManyInCache(entities); none models a null or undefined
argument.  The source guards with an early return when entities is falsy
or has length zero, then performs one UPDATE_MANY dispatch of the mapped
Update array. -/
def updateManyInCache (d : EntityDispatcher) (s : Store)
    (entities : Option (List Value)) : Store :=
  match entities with
  | none => s
  | some [] => s
  | some (e :: rest) =>
    dispatch d s .UPDATE_MANY (.varr ((e :: rest).map (toUpdate d)))

/-- Method setFilter(pattern). -/
def setFilter (d : EntityDispatcher) (s : Store) (pattern : Value) : Store :=
  dispatch d s .SET_FILTER pattern

end EntityDispatcher

/-- One public dispatcher command invocation, with its argument(s). -/
inductive Command where
  | add (entity : Value)
  | delete (arg : Value)
  | update (entity : Value)
  | getAll
  | getByKey (key : Value)
  | getWithQuery (queryParams : Value)
  | addOneToCache (entity : Value)
  | addManyToCache (entities : Value)
  | addAllToCache (entities : Value)
  | updateOneInCache (entity : Value)
  | updateManyInCache (entities : Option (List Value))
  | removeOneFromCache (arg : Value)
  | removeManyFromCache (args : Option (List Value))
  | clearCache
  | setFilter (pattern : Value)

/-- Run one command method on the store. -/
def runCommand (d : EntityDispatcher) (c : Command) (s : Store) : Store :=
  match c with
  | .add e => d.add s e
  | .delete a => d.delete s a
  | .update e => d.update s e
  | .getAll => d.getAll s
  | .getByKey k => d.getByKey s k
  | .getWithQuery q => d.getWithQuery s q
  | .addOneToCache e => d.addOneToCache s e
  | .addManyToCache es => d.addManyToCache s es
  | .addAllToCache es => d.addAllToCache s es
  | .updateOneInCache e => d.updateOneInCache s e
  | .updateManyInCache es => d.updateManyInCache s es
  | .removeOneFromCache a => d.removeOneFromCache s a
  | .removeManyFromCache as => d.removeManyFromCache s as
  | .clearCache => d.clearCache s
  | .setFilter p => d.setFilter s p

/-- The commands the source explicitly guards into a no-op: the two bulk
cache updates called with a null, undefined or empty array. -/
def guardedNoop : Command → Bool
  | .updateManyInCache none => true
  | .updateManyInCache (some []) => true
  | .removeManyFromCache none => true
  | .removeManyFromCache (some []) => true
  | _ => false

/-- The list of actions a command emits, as a function of the dispatcher
configuration and the arguments alone. -/
def emitted (d : EntityDispatcher) : Command → List EntityAction
  | .add e => [⟨d.entityName, .SAVE_ADD, e⟩]
  | .delete a => [⟨d.entityName, .SAVE_DELETE, d.getKey a⟩]
  | .update e => [⟨d.entityName, .SAVE_UPDATE, d.toUpdate e⟩]
  | .getAll => [⟨d.entityName, .QUERY_ALL, .vundefined⟩]
  | .getByKey k => [⟨d.entityName, .QUERY_BY_KEY, k⟩]
  | .getWithQuery q => [⟨d.entityName, .QUERY_MANY, q⟩]
  | .addOneToCache e => [⟨d.entityName, .ADD_ONE, e⟩]
  | .addManyToCache es => [⟨d.entityName, .ADD_MANY, es⟩]
  | .addAllToCache es => [⟨d.entityName, .ADD_ALL, es⟩]
  | .updateOneInCache e => [⟨d.entityName, .UPDATE_ONE, d.toUpdate e⟩]
  | .updateManyInCache none => []
  | .updateManyInCache (some []) => []
  | .updateManyInCache (some (e :: rest)) =>
      [⟨d.entityName, .UPDATE_MANY, .varr ((e :: rest).map d.toUpdate)⟩]
  | .removeOneFromCache a => [⟨d.entityName, .REMOVE_ONE, d.getKey a⟩]
  | .removeManyFromCache none => []
  | .removeManyFromCache (some []) => []
  | .removeManyFromCache (some (a :: rest)) =>
      [⟨d.entityName, .REMOVE_MANY,
        .varr (if typeOf a = "object" then (a :: rest).map d.getKey else a :: rest)⟩]
  | .clearCache => [⟨d.entityName, .REMOVE_ALL, .vundefined⟩]
  | .setFilter p => [⟨d.entityName, .SET_FILTER, p⟩]

/-- The default collection state the selector layer substitutes when no
collection exists yet and no explicit default was supplied: empty id list
and entity map, loading false, no filter, no extension fields. -/
def defaultCollection : EntityCollection :=
  { ids := [], entities := [], loading := false, filter := .vundefined, extra := [] }

/-- Modelled from the spec: the implementation file entity.selectors$.ts
(createCachedCollectionSelector and EntitySelectors$Factory) is not under
src/; only its test file is.  Per the spec and its tests, the selector
returns the cached collection when one exists under the entity name,
otherwise the explicitly supplied default collection state when one was
configured, otherwise the library default; it only reads the cache. -/
def createCachedCollectionSelector (entityName : String)
    (initialState : Option EntityCollection) : EntityCache → EntityCollection :=
  fun cache => (cacheLookup cache entityName).getD (initialState.getD defaultCollection)

/-- JavaScript string coercion of a key used to index an entity map
(object keys are strings). -/
def jsKeyString : Value → String
  | .vnum n => toString n
  | .vstr s => s
  | .vbool b => toString b
  | .vundefined => "undefined"
  | .vobj _ => "object"
  | .varr _ => "array"

/-- Modelled from the spec: the entities view of the selectors layer over
a collection, the ordered sequence of entities per the id list. -/
def selectEntitiesOf (c : EntityCollection) : List Value :=
  c.ids.filterMap (fun k => fieldLookup (jsKeyString k) c.entities)

/-- Modelled from the spec: the loading view of the selectors layer. -/
def loadingView (c : EntityCollection) : Bool := c.loading

/-- Modelled from the spec: the view of one extension field of the
collection; undefined when the field is not configured. -/
def extraFieldView (c : EntityCollection) (f : String) : Value :=
  (fieldLookup f c.extra).getD .vundefined

/-- Modelled from the spec: one read of the collection through the cached
collection selector, returning the emitted collection together with the
cache after the read (the selector only reads, so the cache is returned
as it was). -/
def readCollection (cache : EntityCache) (name : String)
    (initialState : Option EntityCollection) : EntityCollection × EntityCache :=
  (createCachedCollectionSelector name initialState cache, cache)

/-- Concrete test entity with key 1. -/
def heroA : Value := .vobj [("id", .vnum 1), ("name", .vstr "A")]

/-- Concrete test entity with key 2. -/
def heroB : Value := .vobj [("id", .vnum 2), ("name", .vstr "B")]

/-- Concrete malformed partial entity: its id field is missing, so the
default selectId yields undefined on it. -/
def noKeyHero : Value := .vobj [("name", .vstr "A")]

/-- A dispatcher for the Hero entity type with the default selectId. -/
def heroDispatcher : EntityDispatcher := mkEntityDispatcher "Hero" none

/-- The empty entity cache. -/
def emptyCache : EntityCache := []

/-- A store with an empty cache and an empty dispatch log. -/
def emptyStore : Store := { cache := emptyCache, log := [] }

/-- A concrete collection state used as an explicitly supplied default. -/
def sampleHeroCollection : EntityCollection :=
  { ids := [.vnum 1], entities := [("1", heroA)], loading := false,
    filter := .vstr "",
    extra := [("foo", .vstr "foo foo"), ("bar", .vnum 42)] }

/-- Every command method leaves the cache untouched and appends exactly its
emitted actions, which depend only on the dispatcher configuration and
the arguments, to the log. -/
theorem runCommand_spec (d : EntityDispatcher) (c : Command) (s : Store) :
    runCommand d c s = { cache := s.cache, log := s.log ++ emitted d c } := by
  rcases c with e | a | e | _ | k | q | e | es | es | e | es | a | as | _ | p
  case updateManyInCache =>
    rcases es with _ | ⟨_ | ⟨e, rest⟩⟩ <;>
      simp [runCommand, emitted, EntityDispatcher.updateManyInCache,
        EntityDispatcher.dispatch, storeDispatch]
  case removeManyFromCache =>
    rcases as with _ | ⟨_ | ⟨a, rest⟩⟩ <;>
      simp [runCommand, emitted, EntityDispatcher.removeManyFromCache,
        EntityDispatcher.dispatch, storeDispatch]
  all_goals
    simp [runCommand, emitted, EntityDispatcher.add, EntityDispatcher.delete,
      EntityDispatcher.update, EntityDispatcher.getAll, EntityDispatcher.getByKey,
      EntityDispatcher.getWithQuery, EntityDispatcher.addOneToCache,
      EntityDispatcher.addManyToCache, EntityDispatcher.addAllToCache,
      EntityDispatcher.updateOneInCache, EntityDispatcher.removeOneFromCache,
      EntityDispatcher.clearCache, EntityDispatcher.setFilter,
      EntityDispatcher.dispatch, storeDispatch]

/-- A command emits no action exactly when it is one of the two guarded
bulk no-ops, and otherwise exactly one action. -/
theorem emitted_length (d : EntityDispatcher) (c : Command) :
    (emitted d c).length = if guardedNoop c then 0 else 1 := by
  rcases c with e | a | e | _ | k | q | e | es | es | e |
    (_ | ⟨_ | ⟨e, rest⟩⟩) | a | (_ | ⟨_ | ⟨a, rest⟩⟩) | _ | p <;> rfl

/-- Under an all-objects premise, mapping getKey over a list is mapping
selectId over it. -/
theorem map_getKey_of_all_object (d : EntityDispatcher) (l : List Value)
    (h : l.all (fun x => typeOf x == "object") = true) :
    l.map d.getKey = l.map d.selectId := by
  induction l with
  | nil => rfl
  | cons x xs ih =>
    simp only [List.all_cons, Bool.and_eq_true, beq_iff_eq] at h
    simp [List.map, EntityDispatcher.getKey, h.1, ih h.2]

/-- A number or string value does not answer "object" to typeof. -/
theorem typeOf_ne_object_of_key (v : Value) (h : isKeyValue v = true) :
    ¬ typeOf v = "object" := by
  cases v <;> simp_all [isKeyValue, typeOf]

/-- C1 counterexample: calling update, updateOneInCache or
updateManyInCache with a partial entity whose id field is missing raises
nothing and dispatches exactly one action whose Update id is undefined,
so the claim that such misuse is detected at dispatch time and never
silently dispatched is false on the code. -/
theorem c1_counterexample :
    (heroDispatcher.update emptyStore noKeyHero).log =
      [⟨"Hero", .SAVE_UPDATE, .vobj [("id", .vundefined), ("changes", noKeyHero)]⟩] ∧
    (heroDispatcher.updateOneInCache emptyStore noKeyHero).log =
      [⟨"Hero", .UPDATE_ONE, .vobj [("id", .vundefined), ("changes", noKeyHero)]⟩] ∧
    (heroDispatcher.updateManyInCache emptyStore (some [noKeyHero])).log =
      [⟨"Hero", .UPDATE_MANY, .varr [.vobj [("id", .vundefined), ("changes", noKeyHero)]]⟩] :=
  ⟨rfl, rfl, rfl⟩

/-- C1 (amended): the update commands perform no validation of their
argument: when selectId yields undefined on a malformed partial entity,
each of update, updateOneInCache and updateManyInCache still dispatches
exactly one action, whose Update record carries the undefined id. -/
theorem c1_update_malformed_key_dispatched (d : EntityDispatcher) (s : Store)
    (e : Value) (rest : List Value) (h : d.selectId e = .vundefined) :
    (d.update s e).log =
      s.log ++ [⟨d.entityName, .SAVE_UPDATE, .vobj [("id", .vundefined), ("changes", e)]⟩] ∧
    (d.updateOneInCache s e).log =
      s.log ++ [⟨d.entityName, .UPDATE_ONE, .vobj [("id", .vundefined), ("changes", e)]⟩] ∧
    (d.updateManyInCache s (some (e :: rest))).log =
      s.log ++ [⟨d.entityName, .UPDATE_MANY,
        .varr (Value.vobj [("id", .vundefined), ("changes", e)] :: rest.map d.toUpdate)⟩] := by
  refine ⟨?_, ?_, ?_⟩ <;>
    simp [EntityDispatcher.update, EntityDispatcher.updateOneInCache,
      EntityDispatcher.updateManyInCache, EntityDispatcher.toUpdate,
      EntityDispatcher.dispatch, storeDispatch, h]

/-- C1 witness: the amended theorem applied to the Hero dispatcher and the
concrete partial entity without an id field. -/
theorem c1_witness :
    heroDispatcher.selectId noKeyHero = Value.vundefined ∧
    (heroDispatcher.update emptyStore noKeyHero).log =
      emptyStore.log ++
        [⟨"Hero", .SAVE_UPDATE, .vobj [("id", .vundefined), ("changes", noKeyHero)]⟩] :=
  ⟨rfl,
    (c1_update_malformed_key_dispatched heroDispatcher emptyStore noKeyHero [] rfl).1⟩

/-- C2 counterexample: removeManyFromCache on an empty array and
updateManyInCache on an absent argument dispatch zero actions, so the
claim that every command method on every input dispatches exactly one
action (never zero) is false on the code. -/
theorem c2_counterexample :
    (heroDispatcher.removeManyFromCache emptyStore (some [])).log = [] ∧
    (heroDispatcher.updateManyInCache emptyStore none).log = [] :=
  ⟨rfl, rfl⟩

/-- C2 (amended): every public command method dispatches exactly one
EntityAction per invocation, except removeManyFromCache and
updateManyInCache called with an absent or empty array, which dispatch
none; no method ever dispatches more than one, and none touches the
cache. -/
theorem c2_dispatch_count (d : EntityDispatcher) (c : Command) (s : Store) :
    (runCommand d c s).log.length =
      s.log.length + (if guardedNoop c then 0 else 1) ∧
    (runCommand d c s).cache = s.cache := by
  rw [runCommand_spec]
  simp [emitted_length]

/-- C5: update, updateOneInCache and updateManyInCache dispatch, for each
given partial entity, the Update record whose id is selectId applied to
the entity and whose changes field is the given entity itself,
unmodified. -/
theorem c5_update_payload (d : EntityDispatcher) (s : Store) (e : Value)
    (rest : List Value) :
    (d.update s e).log =
      s.log ++
        [⟨d.entityName, .SAVE_UPDATE, .vobj [("id", d.selectId e), ("changes", e)]⟩] ∧
    (d.updateOneInCache s e).log =
      s.log ++
        [⟨d.entityName, .UPDATE_ONE, .vobj [("id", d.selectId e), ("changes", e)]⟩] ∧
    (d.updateManyInCache s (some (e :: rest))).log =
      s.log ++
        [⟨d.entityName, .UPDATE_MANY,
          .varr ((e :: rest).map
            (fun x => Value.vobj [("id", d.selectId x), ("changes", x)]))⟩] := by
  refine ⟨?_, ?_, ?_⟩ <;>
    simp [EntityDispatcher.update, EntityDispatcher.updateOneInCache,
      EntityDispatcher.updateManyInCache, EntityDispatcher.toUpdate,
      EntityDispatcher.dispatch, storeDispatch]

/-- C7: no command reads the cache: two invocations of the same command
with the same arguments on stores with arbitrary differing caches append
identical actions to the log, and the cache itself is left unchanged. -/
theorem c7_cache_independent (d : EntityDispatcher) (c : Command)
    (k1 k2 : EntityCache) (log : List EntityAction) :
    (runCommand d c { cache := k1, log := log }).log =
      (runCommand d c { cache := k2, log := log }).log ∧
    (runCommand d c { cache := k1, log := log }).cache = k1 := by
  simp [runCommand_spec]

/-- C8: when no identity-extraction function is supplied, both the
EntityDispatcher constructor and createEntityDispatcher default selectId
to the accessor of the id field of the entity; on an object carrying an
id field it returns that field. -/
theorem c8_default_selectId (n : String) (e k : Value)
    (fs : List (String × Value)) :
    (mkEntityDispatcher n none).selectId e = fieldValue e "id" ∧
    (createEntityDispatcher n none).selectId e = fieldValue e "id" ∧
    (mkEntityDispatcher n none).selectId (.vobj (("id", k) :: fs)) = k ∧
    (createEntityDispatcher n none).selectId (.vobj (("id", k) :: fs)) = k := by
  refine ⟨?_, ?_, ?_, ?_⟩ <;>
    simp [mkEntityDispatcher, createEntityDispatcher, defaultSelectId,
      fieldValue, fieldLookup]

/-- C9: updateManyInCache called with an absent (null or undefined) or
empty array returns the store unchanged: no action is enqueued. -/
theorem c9_updateManyInCache_guard (d : EntityDispatcher) (s : Store) :
    d.updateManyInCache s none = s ∧ d.updateManyInCache s (some []) = s :=
  ⟨rfl, rfl⟩

/-- C3: removeManyFromCache on an absent or empty argument is a guarded
no-op dispatching nothing; on a non-empty array it decides on typeof of
the first element alone: when every element is an entity object (and the
configured selectId yields keys on them) it dispatches exactly one
REMOVE_MANY action whose payload is the array of extracted keys, and when
every element is a raw key it dispatches exactly one REMOVE_MANY action
whose payload is that key array unchanged. -/
theorem c3_removeManyFromCache_spec (d : EntityDispatcher) (s : Store) :
    d.removeManyFromCache s none = s ∧
    d.removeManyFromCache s (some []) = s ∧
    ∀ (a : Value) (rest : List Value),
      ((a :: rest).all (fun x => typeOf x == "object") = true →
        ((a :: rest).map d.selectId).all isKeyValue = true →
        (d.removeManyFromCache s (some (a :: rest))).log =
          s.log ++
            [⟨d.entityName, .REMOVE_MANY, .varr ((a :: rest).map d.selectId)⟩] ∧
        ((a :: rest).map d.selectId).all isKeyValue = true) ∧
      ((a :: rest).all isKeyValue = true →
        (d.removeManyFromCache s (some (a :: rest))).log =
          s.log ++ [⟨d.entityName, .REMOVE_MANY, .varr (a :: rest)⟩] ∧
        (a :: rest).all isKeyValue = true) := by
  refine ⟨rfl, rfl, ?_⟩
  intro a rest
  constructor
  · intro hobj hkeys
    refine ⟨?_, hkeys⟩
    have hhead : typeOf a = "object" := by
      simp only [List.all_cons, Bool.and_eq_true, beq_iff_eq] at hobj
      exact hobj.1
    simp [EntityDispatcher.removeManyFromCache, EntityDispatcher.dispatch,
      storeDispatch, hhead, map_getKey_of_all_object d (a :: rest) hobj]
  · intro hkeys
    refine ⟨?_, hkeys⟩
    have hhead : ¬ typeOf a = "object" := by
      apply typeOf_ne_object_of_key
      simp only [List.all_cons, Bool.and_eq_true] at hkeys
      exact hkeys.1
    simp [EntityDispatcher.removeManyFromCache, EntityDispatcher.dispatch,
      storeDispatch, hhead]

/-- C3 witness: the theorem applied to the Hero dispatcher and a concrete
homogeneous entity array. -/
theorem c3_witness :
    [heroA, heroB].all (fun x => typeOf x == "object") = true ∧
    ([heroA, heroB].map heroDispatcher.selectId).all isKeyValue = true ∧
    (heroDispatcher.removeManyFromCache emptyStore (some [heroA, heroB])).log =
      emptyStore.log ++
        [⟨"Hero", .REMOVE_MANY, .varr ([heroA, heroB].map heroDispatcher.selectId)⟩] :=
  ⟨rfl, rfl,
    (((c3_removeManyFromCache_spec heroDispatcher emptyStore).2.2 heroA
      [heroB]).1 rfl rfl).1⟩

/-- C4 counterexample: removeManyFromCache on a mixed array whose first
element is a raw key forwards a later entity element unconverted in the
payload, even though selectId would resolve it to key 2, so the claim that
every entity array element is resolved through selectId before dispatch is
false on the code. -/
theorem c4_counterexample :
    (heroDispatcher.removeManyFromCache emptyStore
      (some [.vstr "a", heroB])).log =
      [⟨"Hero", .REMOVE_MANY, .varr [.vstr "a", heroB]⟩] ∧
    heroDispatcher.selectId heroB = .vnum 2 ∧
    heroB ≠ Value.vnum 2 :=
  ⟨rfl, rfl, fun h => Value.noConfusion h⟩

/-- C4 (amended): delete and removeOneFromCache always resolve their
argument through getKey, the shared rule mapping an object through
selectId and passing a raw key through unchanged; removeManyFromCache
applies the same getKey to every element only when its first element is
an object, and otherwise forwards the array unchanged. -/
theorem c4_getKey_resolution (d : EntityDispatcher) (s : Store)
    (arg a : Value) (rest : List Value) :
    (d.delete s arg).log =
      s.log ++ [⟨d.entityName, .SAVE_DELETE, d.getKey arg⟩] ∧
    (d.removeOneFromCache s arg).log =
      s.log ++ [⟨d.entityName, .REMOVE_ONE, d.getKey arg⟩] ∧
    (d.removeManyFromCache s (some (a :: rest))).log =
      s.log ++
        [⟨d.entityName, .REMOVE_MANY,
          .varr (if typeOf a = "object" then (a :: rest).map d.getKey
            else a :: rest)⟩] ∧
    d.getKey arg = (if typeOf arg = "object" then d.selectId arg else arg) := by
  refine ⟨?_, ?_, ?_, rfl⟩ <;>
    simp [EntityDispatcher.delete, EntityDispatcher.removeOneFromCache,
      EntityDispatcher.removeManyFromCache, EntityDispatcher.dispatch,
      storeDispatch]

/-- C6: before a collection for the entity type exists in the cache, the
selector views emit well-defined defaults: an empty entity sequence,
loading false, and undefined for every extension field; when an explicit
default collection state was supplied it is emitted instead, field for
field; and the substitution happens only at read time, the read leaving
the cache unchanged, still holding no collection for the entity type. -/
theorem c6_selectors_defaults (name : String) (cache : EntityCache)
    (h : cacheLookup cache name = none) :
    (selectEntitiesOf (createCachedCollectionSelector name none cache) = [] ∧
     loadingView (createCachedCollectionSelector name none cache) = false ∧
     ∀ f, extraFieldView (createCachedCollectionSelector name none cache) f =
       .vundefined) ∧
    ∀ d0 : EntityCollection,
      createCachedCollectionSelector name (some d0) cache = d0 ∧
      (readCollection cache name (some d0)).2 = cache ∧
      cacheLookup (readCollection cache name (some d0)).2 name = none := by
  refine ⟨⟨?_, ?_, ?_⟩, ?_⟩ <;>
    simp [createCachedCollectionSelector, h, defaultCollection,
      selectEntitiesOf, loadingView, extraFieldView, fieldLookup,
      readCollection]

/-- C6 witness: the theorem applied to the Hero entity type, the empty
cache, and a concrete supplied default collection state. -/
theorem c6_witness :
    cacheLookup emptyCache "Hero" = none ∧
    selectEntitiesOf (createCachedCollectionSelector "Hero" none emptyCache) = [] ∧
    loadingView (createCachedCollectionSelector "Hero" none emptyCache) = false ∧
    extraFieldView (createCachedCollectionSelector "Hero" none emptyCache) "foo" =
      .vundefined ∧
    createCachedCollectionSelector "Hero" (some sampleHeroCollection) emptyCache =
      sampleHeroCollection ∧
    cacheLookup (readCollection emptyCache "Hero" (some sampleHeroCollection)).2
      "Hero" = none := by
  have h := c6_selectors_defaults "Hero" emptyCache rfl
  exact ⟨rfl, h.1.1, h.1.2.1, h.1.2.2 "foo",
    (h.2 sampleHeroCollection).1, (h.2 sampleHeroCollection).2.2⟩

/-- C10: the keys-versus-entities decision of removeManyFromCache is
asymmetric per element: when the first element is an object every element
is converted through getKey (objects through selectId, primitives passed
through), while when the first element is a primitive the whole array is
dispatched as-is, any later entity objects forwarded unconverted. -/
theorem c10_first_element_asymmetry (d : EntityDispatcher) (s : Store)
    (a v : Value) (rest : List Value) :
    (typeOf a = "object" →
      (d.removeManyFromCache s (some (a :: rest))).log =
        s.log ++ [⟨d.entityName, .REMOVE_MANY, .varr ((a :: rest).map d.getKey)⟩]) ∧
    (¬ typeOf a = "object" →
      (d.removeManyFromCache s (some (a :: rest))).log =
        s.log ++ [⟨d.entityName, .REMOVE_MANY, .varr (a :: rest)⟩]) ∧
    d.getKey v = (if typeOf v = "object" then d.selectId v else v) := by
  refine ⟨?_, ?_, rfl⟩ <;> intro h <;>
    simp [EntityDispatcher.removeManyFromCache, EntityDispatcher.dispatch,
      storeDispatch, h]

/-- C10 witness: the theorem applied to a mixed array led by an entity
(fully resolved to keys) and to a mixed array led by a raw key (forwarded
unchanged, the trailing entity unconverted). -/
theorem c10_witness :
    typeOf heroA = "object" ∧
    (heroDispatcher.removeManyFromCache emptyStore
      (some [heroA, .vstr "x"])).log =
      emptyStore.log ++
        [⟨"Hero", .REMOVE_MANY, .varr ([heroA, .vstr "x"].map heroDispatcher.getKey)⟩] ∧
    ¬ typeOf (Value.vstr "a") = "object" ∧
    (heroDispatcher.removeManyFromCache emptyStore
      (some [.vstr "a", heroB])).log =
      emptyStore.log ++ [⟨"Hero", .REMOVE_MANY, .varr [.vstr "a", heroB]⟩] :=
  ⟨rfl,
    (c10_first_element_asymmetry heroDispatcher emptyStore heroA heroA
      [.vstr "x"]).1 rfl,
    by decide,
    (c10_first_element_asymmetry heroDispatcher emptyStore (.vstr "a") heroA
      [heroB]).2.1 (by decide)⟩

end NgrxData
